import Mathlib

/-!
Verification of the audit-coe-api schema-adaptive query layer.

The repository is a small HTTP API (src/main.py, src/db.py) over Postgres.
This file gives a shallow embedding of its pure decision logic:
column-list intersection, alias resolution, required-column checking,
UUID validation, SQL statement assembly (as structured fragment lists,
mirroring the psycopg sql composition objects used by the source), and
the task-response creation flow including its transaction semantics
(psycopg connection context manager: commit on normal block exit,
rollback when an exception escapes the block).

Machine floats appear only as opaque pass-through payload values
(value_number); they are modelled as rationals since no arithmetic is
ever performed on them.
-/

namespace AuditCoe

/-! ### Python-level helpers -/

/-- Truthiness of an optional string, as Python `if x:` sees it:
`None` and the empty string are falsy. -/
def pyTruthy : Option String → Bool
  | none => false
  | some s => s ≠ ""

/-- `Option.getD` specialised: the string under an optional, "" when absent. -/
def optStr (o : Option String) : String := o.getD ""

/-- Whether `pat` occurs as a contiguous block of `l`. -/
def listContains (pat : List Char) : List Char → Bool
  | [] => pat.isEmpty
  | c :: rest => pat.isPrefixOf (c :: rest) || listContains pat rest

/-- Python substring test `needle in hay`. -/
def pyContains (needle hay : String) : Bool :=
  listContains needle.data hay.data

/-- Python falsiness of an optional column default (`not column_default`):
`None` and the empty string count as "no default". -/
def pyFalsyDefault : Option String → Bool
  | none => true
  | some s => s = ""

/-- Insert a string into a sorted list (ascending, stable). -/
def insSorted (a : String) : List String → List String
  | [] => [a]
  | b :: l => if a ≤ b then a :: b :: l else b :: insSorted a l

/-- Python `sorted` on a list of strings (ascending lexicographic). -/
def sortStrings (l : List String) : List String := l.foldr insSorted []

/-! ### UUID validation (src/main.py `_is_uuid`, via CPython `uuid.UUID`)

CPython `uuid.UUID(hex)` preprocesses the string with
`hex.replace('urn:', '').replace('uuid:', '').strip('{}').replace('-', '')`,
requires the result to have length 32, and parses it with `int(_, 16)`
(which tolerates surrounding ASCII whitespace, one sign, an optional
`0x`/`0X` base marker, and single underscores between digits). -/

/-- One pass of non-overlapping left-to-right deletion of `pat`,
with explicit fuel (the list length bounds the number of steps). -/
def removeAllAux (pat : List Char) : Nat → List Char → List Char
  | _, [] => []
  | 0, l => l
  | fuel + 1, c :: rest =>
    if pat.isPrefixOf (c :: rest) && !pat.isEmpty then
      removeAllAux pat fuel (List.drop pat.length (c :: rest))
    else
      c :: removeAllAux pat fuel rest

/-- Python `s.replace(pat, '')`: delete every (non-overlapping,
left-to-right) occurrence of `pat`. -/
def removeAll (pat l : List Char) : List Char := removeAllAux pat l.length l

def isBrace (c : Char) : Bool := c = '{' || c = '}'

/-- Python `s.strip('{}')`: drop leading and trailing brace characters. -/
def stripBraces (l : List Char) : List Char :=
  ((l.dropWhile isBrace).reverse.dropWhile isBrace).reverse

def pyIsHexDigit (c : Char) : Bool :=
  ('0' ≤ c && c ≤ '9') || ('a' ≤ c && c ≤ 'f') || ('A' ≤ c && c ≤ 'F')

def pyIsSpace (c : Char) : Bool :=
  c = ' ' || c = '\t' || c = '\n' || c = '\r' || c = '\x0b' || c = '\x0c'

/-- Hex digit runs separated by single underscores: must start and end
with a digit, no two consecutive underscores.  The flag records whether
the previous character was a digit. -/
def hexUnd : List Char → Bool → Bool
  | [], prev => prev
  | c :: rest, prev =>
    if pyIsHexDigit c then hexUnd rest true
    else if c = '_' then prev && hexUnd rest false
    else false

/-- Python `int(s, 16)` success: optional surrounding whitespace, optional
sign, optional `0x`/`0X` marker (optionally followed by one underscore),
then hex digits with single underscores between them. -/
def pyIntHex16Valid (l0 : List Char) : Bool :=
  let l1 := ((l0.dropWhile pyIsSpace).reverse.dropWhile pyIsSpace).reverse
  let l2 := match l1 with
    | c :: rest => if c = '+' || c = '-' then rest else l1
    | [] => []
  match l2 with
  | '0' :: x :: rest =>
    if x = 'x' || x = 'X' then
      match rest with
      | '_' :: rest2 => hexUnd rest2 false
      | _ => hexUnd rest false
    else hexUnd l2 false
  | _ => hexUnd l2 false

/-- src/main.py `_is_uuid`: true iff `uuid.UUID(str(value))` succeeds. -/
def is_uuid (s : String) : Bool :=
  let l1 := removeAll ("urn:".data) s.data
  let l2 := removeAll ("uuid:".data) l1
  let l3 := stripBraces l2
  let l4 := l3.filter (fun c => c ≠ '-')
  l4.length == 32 && pyIntHex16Valid l4

/-! ### Column resolver and required-field guard (src/main.py) -/

/-- src/main.py `_select_intersection`:
`[c for c in desired if c in set(existing)]`. -/
def select_intersection (existing desired : List String) : List String :=
  desired.filter (fun c => existing.contains c)

/-- src/main.py `_pick_first`: first candidate present in `existing`. -/
def pick_first (existing candidates : List String) : Option String :=
  candidates.find? (fun c => existing.contains c)

/-- Column metadata row from `information_schema.columns`
(src/main.py `_table_column_meta`). -/
structure ColMeta where
  is_nullable : String
  column_default : Option String
  data_type : String
  udt_name : String
deriving Repr, DecidableEq

/-- The metadata dict of one table, keyed by column name, in ordinal
position order (Python dict preserves insertion order; names unique). -/
abbrev TableMeta := List (String × ColMeta)

/-- Dict lookup on a TableMeta. -/
def lookupMeta (meta : TableMeta) (name : String) : Option ColMeta :=
  (meta.find? (fun cm => cm.1 = name)).map (fun cm => cm.2)

/-- Column names of a TableMeta (Python `meta.keys()`). -/
def metaCols (meta : TableMeta) : List String :=
  meta.map Prod.fst

/-- src/main.py `_missing_required_columns`: NOT-NULL, default-less
columns absent from `provided`, in metadata order. -/
def missing_required_columns (meta : TableMeta) (provided : List String) : List String :=
  (meta.filter
    (fun cm => !(provided.contains cm.1)
      && cm.2.is_nullable == "NO" && pyFalsyDefault cm.2.column_default)).map Prod.fst

/-- Fixed allow-list applied in `create_task_response` after
`_missing_required_columns` (src/main.py line 381). -/
def allowlist : List String := ["id", "created_at", "updated_at"]

/-- The composite required-field check as the write path performs it:
`_missing_required_columns` filtered by the fixed allow-list. -/
def checkRequired (meta : TableMeta) (provided : List String) : List String :=
  (missing_required_columns meta provided).filter (fun c => !(allowlist.contains c))

/-! ### Connection-string handling (src/db.py `get_conn`, src/main.py `_db`) -/

/-- The DSN that src/db.py `get_conn` passes to `psycopg.connect`:
appends `sslmode=require` when no `sslmode=` is present, joining with
`&` if the string already contains `?`, else with `?`.  Raises (models
as `.error`) when the string is empty. -/
def get_conn_dsn (dsn : String) : Except String String :=
  if dsn = "" then .error "DATABASE_URL is not set"
  else if !(pyContains "sslmode=" dsn) then
    .ok (dsn ++ (if pyContains "?" dsn then "&" else "?") ++ "sslmode=require")
  else .ok dsn

/-- The DSN that src/main.py `_db` passes to `psycopg.connect`: the
configured `DATABASE_URL`, unchanged.  This is the connection opener
every API endpoint actually uses; `get_conn` is never imported. -/
def main_db_dsn (dsn : String) : Except String String :=
  if dsn = "" then .error "DATABASE_URL not set" else .ok dsn

/-! ### SQL statements as structured fragment lists

The source composes statements from `psycopg.sql` objects: raw SQL text,
quoted identifiers, and named placeholders.  We mirror that structure;
`%(name)s` placeholders written inside raw SQL text in the source are
represented by the `ph` constructor. -/

inductive SqlFrag where
  | raw (s : String)
  | ident (name : String)
  | ph (name : String)
deriving Repr, DecidableEq

/-- Named placeholders occurring in a statement. -/
def fragPlaceholders (fs : List SqlFrag) : List String :=
  fs.filterMap (fun f => match f with | .ph n => some n | _ => none)

/-- `sql.SQL(sep).join(parts)`: interpose a separator fragment. -/
def joinFrags (sep : SqlFrag) : List (List SqlFrag) → List SqlFrag
  | [] => []
  | [p] => p
  | p :: ps => p ++ [sep] ++ joinFrags sep ps

/-- `sql.SQL("WHERE ") + sql.SQL(" AND ").join(where_parts) if where_parts
else sql.SQL("")` (src/main.py lines 202 and 290). -/
def whereClauseFrags (parts : List (List SqlFrag)) : List SqlFrag :=
  if parts.isEmpty then [] else SqlFrag.raw "WHERE " :: joinFrags (.raw " AND ") parts

/-- Bound parameter values.  Floats are pass-through payload; rationals
stand in for them.  `vNow` is the uninterpreted `datetime.utcnow()`. -/
inductive PyVal where
  | vStr (s : String)
  | vBool (b : Bool)
  | vNum (q : ℚ)
  | vInt (n : Int)
  | vNow
deriving Repr, DecidableEq

/-- A parameterized statement as built by the listing endpoints, keeping
the resolved selection and WHERE predicate list visible. -/
structure BuiltQuery where
  selectCols : List String
  whereParts : List (List SqlFrag)
  frags : List SqlFrag
  params : List (String × PyVal)
deriving Repr, DecidableEq

/-! ### GET /audit-runs (src/main.py `list_audit_runs`) -/

def audit_runs_desired : List String :=
  ["id", "account_id", "template_id", "status", "started_at", "due_at", "created_at"]

/-- The single possible WHERE predicate of the run listing:
`account_id = %(account_id)s`. -/
def auditRunsAccountPred : List SqlFrag := [.raw "account_id = ", .ph "account_id"]

inductive RunsResult where
  | errNoKnownColumns (found : List String)
  | query (q : BuiltQuery)
deriving Repr, DecidableEq

/-- Pure core of `list_audit_runs`: given the live `audit_runs` column
list, build the statement and parameter set (or the no-known-columns
error).  Execution of the statement is outside the model. -/
def listAuditRunsStmt (cols : List String) (account_id : Option String)
    (limit : Int) : RunsResult :=
  let select_cols := select_intersection cols audit_runs_desired
  if select_cols.isEmpty then .errNoKnownColumns cols
  else
    let withAcc := pyTruthy account_id && cols.contains "account_id"
    let where_parts := if withAcc then [auditRunsAccountPred] else []
    let params := ("limit", PyVal.vInt limit) ::
      (if withAcc then [("account_id", PyVal.vStr (optStr account_id))] else [])
    let order_col := if cols.contains "created_at" then "created_at" else select_cols.headD ""
    .query {
      selectCols := select_cols
      whereParts := where_parts
      frags :=
        [SqlFrag.raw "SELECT "]
          ++ joinFrags (.raw ", ") (select_cols.map (fun c => [SqlFrag.ident c]))
          ++ [SqlFrag.raw " FROM ", SqlFrag.ident "audit_runs", SqlFrag.raw " "]
          ++ whereClauseFrags where_parts
          ++ [SqlFrag.raw " ORDER BY ", SqlFrag.ident order_col,
              SqlFrag.raw " DESC LIMIT ", SqlFrag.ph "limit", SqlFrag.raw ";"]
      params := params }

/-! ### GET /tasks (src/main.py `list_tasks`) -/

def tasks_desired : List String :=
  ["id", "audit_run_id", "template_task_id", "title", "description", "status",
   "owner_user_id", "due_at", "created_at"]

def tasksAuditRunPred : List SqlFrag := [.raw "t.audit_run_id = ", .ph "audit_run_id"]
def tasksStatusPred : List SqlFrag := [.raw "t.status = ", .ph "status"]
def tasksAccountPredT : List SqlFrag := [.raw "t.account_id = ", .ph "account_id"]
def tasksAccountPredR : List SqlFrag := [.raw "r.account_id = ", .ph "account_id"]

/-- `JOIN audit_runs r ON r.id = t.audit_run_id`. -/
def tasksJoinFrags : List SqlFrag :=
  [.raw "JOIN ", .ident "audit_runs", .raw " r ON r.id = t.audit_run_id"]

inductive TasksResult where
  | errNoKnownColumns (found : List String)
  | errCannotFilterAccount (detail : String) (tasks_columns audit_runs_columns : List String)
  | query (q : BuiltQuery)
deriving Repr, DecidableEq

/-- Assemble the task-listing statement from the resolved pieces. -/
def mkTasksQuery (task_cols select_cols : List String)
    (where_parts : List (List SqlFrag)) (joinF : List SqlFrag)
    (params : List (String × PyVal)) : BuiltQuery :=
  let order_col := if task_cols.contains "created_at" then "created_at" else select_cols.headD ""
  { selectCols := select_cols
    whereParts := where_parts
    frags :=
      [SqlFrag.raw "SELECT "]
        ++ joinFrags (.raw ", ") (select_cols.map (fun c => [SqlFrag.raw "t.", SqlFrag.ident c]))
        ++ [SqlFrag.raw " FROM ", SqlFrag.ident "tasks", SqlFrag.raw " t "]
        ++ joinF ++ [SqlFrag.raw " "]
        ++ whereClauseFrags where_parts
        ++ [SqlFrag.raw " ORDER BY t.", SqlFrag.ident order_col,
            SqlFrag.raw " DESC LIMIT ", SqlFrag.ph "limit", SqlFrag.raw ";"]
    params := params }

/-- Pure core of `list_tasks`: given the live `tasks` and `audit_runs`
column lists and the optional filters, build the statement and parameter
set, or one of the two structured errors. -/
def listTasksStmt (task_cols run_cols : List String)
    (audit_run_id account_id status : Option String) (limit : Int) : TasksResult :=
  let select_cols := select_intersection task_cols tasks_desired
  if select_cols.isEmpty then .errNoKnownColumns task_cols
  else
    let b1 := pyTruthy audit_run_id && task_cols.contains "audit_run_id"
    let b2 := pyTruthy status && task_cols.contains "status"
    let w := (if b1 then [tasksAuditRunPred] else [])
      ++ (if b2 then [tasksStatusPred] else [])
    let params := [("limit", PyVal.vInt limit)]
      ++ (if b1 then [("audit_run_id", PyVal.vStr (optStr audit_run_id))] else [])
      ++ (if b2 then [("status", PyVal.vStr (optStr status))] else [])
    if pyTruthy account_id then
      if task_cols.contains "account_id" then
        .query (mkTasksQuery task_cols select_cols (w ++ [tasksAccountPredT]) []
          (params ++ [("account_id", PyVal.vStr (optStr account_id))]))
      else if task_cols.contains "audit_run_id" && run_cols.contains "id"
          && run_cols.contains "account_id" then
        .query (mkTasksQuery task_cols select_cols (w ++ [tasksAccountPredR]) tasksJoinFrags
          (params ++ [("account_id", PyVal.vStr (optStr account_id))]))
      else
        .errCannotFilterAccount
          "tasks.account_id missing and cannot join to audit_runs (missing required columns)."
          task_cols run_cols
    else .query (mkTasksQuery task_cols select_cols w [] params)

/-! ### POST /task-responses (src/main.py `create_task_response`)

The handler body is a `try:` around `with _db() as conn:`.  psycopg
connections run with autocommit off; the context manager commits when
the block exits normally (including via `return`) and rolls back when an
exception escapes the block.  The `except` clause sits outside the
`with`, so an execution fault in any statement aborts the transaction
before the generic error is returned.

The database is abstracted to the two metadata snapshots the handler
reads, whether the parent-task lookup finds a row, and whether the
INSERT/UPDATE statements raise. -/

structure Payload where
  task_id : String
  response_text : Option String := none
  response_type : Option String := none
  value_bool : Option Bool := none
  value_number : Option ℚ := none
  user_id : Option String := none
deriving Repr, DecidableEq

structure Db where
  tr_meta : TableMeta
  t_meta : TableMeta
  task_found : Bool
  insert_raises : Bool
  update_raises : Bool
  insert_error : String := ""
  update_error : String := ""
deriving Repr, DecidableEq

/-- Operations sent over the connection, in order. -/
inductive DbOp where
  | connect
  | queryMeta (table : String)
  | selectTaskExists (task_id : String)
  | insertRow (stmt : List SqlFrag) (cols : List String)
  | updateTask (setCols : List String)
deriving Repr, DecidableEq

/-- The write operations among a trace. -/
def writesOf (ops : List DbOp) : List DbOp :=
  ops.filter (fun o => match o with
    | .insertRow _ _ => true
    | .updateTask _ => true
    | _ => false)

/-- Extra fields attached to structured error payloads. -/
inductive Extra where
  | str (s : String)
  | cols (l : List String)
deriving Repr, DecidableEq

inductive Resp where
  | saved (task_id : String) (returning : List String)
  | err (code : String) (detail : String) (extras : List (String × Extra))
deriving Repr, DecidableEq

/-- Result of one request: the JSON-level response, the operations
attempted on the connection, and the write operations that remain
persisted once the request finishes (empty when the transaction was
rolled back). -/
structure Outcome where
  result : Resp
  ops : List DbOp
  committedWrites : List DbOp
deriving Repr, DecidableEq

def tr_fk_candidates : List String := ["task_id", "tasks_id", "task_uuid"]
def responder_candidates : List String :=
  ["user_id", "responder_user_id", "created_by_user_id", "created_by", "owner_user_id"]
def text_candidates : List String := ["response_text", "text", "comment", "response", "answer_text"]
def type_candidates : List String := ["response_type", "type"]
def bool_candidates : List String := ["value_bool", "bool_value", "response_bool"]
def num_candidates : List String := ["value_number", "number_value", "response_number"]

/-- `insert_data` (src/main.py lines 360-375): the task FK column first,
then each optional field whose alias resolved and whose payload value
was supplied.  Note `user_id` is gated on truthiness while the others
are gated on `is not None`. -/
def insertPlan (p : Payload) (tr_cols : List String) (fk : String) : List (String × PyVal) :=
  [(fk, PyVal.vStr p.task_id)]
  ++ (match pick_first tr_cols responder_candidates with
      | some c => if pyTruthy p.user_id then [(c, PyVal.vStr (optStr p.user_id))] else []
      | none => [])
  ++ (match pick_first tr_cols text_candidates with
      | some c => match p.response_text with
        | some t => [(c, PyVal.vStr t)]
        | none => []
      | none => [])
  ++ (match pick_first tr_cols type_candidates with
      | some c => match p.response_type with
        | some t => [(c, PyVal.vStr t)]
        | none => []
      | none => [])
  ++ (match pick_first tr_cols bool_candidates with
      | some c => match p.value_bool with
        | some b => [(c, PyVal.vBool b)]
        | none => []
      | none => [])
  ++ (match pick_first tr_cols num_candidates with
      | some c => match p.value_number with
        | some q => [(c, PyVal.vNum q)]
        | none => []
      | none => [])

/-- `returning_cols` (src/main.py line 409). -/
def returningColsOf (tr_cols : List String) : List String :=
  ["id", "task_id", "created_at"].filter (fun c => tr_cols.contains c)

/-- The INSERT statement (src/main.py lines 405-421). -/
def buildInsertStmt (insert_cols returning_cols : List String) : List SqlFrag :=
  [SqlFrag.raw "INSERT INTO ", SqlFrag.ident "task_responses", SqlFrag.raw " ("]
    ++ joinFrags (.raw ", ") (insert_cols.map (fun c => [SqlFrag.ident c]))
    ++ [SqlFrag.raw ") VALUES ("]
    ++ joinFrags (.raw ", ") (insert_cols.map (fun c => [SqlFrag.ph c]))
    ++ [SqlFrag.raw ")"]
    ++ (if returning_cols.isEmpty then []
        else SqlFrag.raw " RETURNING "
          :: joinFrags (.raw ", ") (returning_cols.map (fun c => [SqlFrag.ident c])))
    ++ [SqlFrag.raw ";"]

/-- `update_fields` (src/main.py lines 432-440): `responded_at` when the
parent table has it; `status = "responded"` unless the status column has
a USER-DEFINED (enum) data type. -/
def updateFieldsOf (t_meta : TableMeta) : List (String × PyVal) :=
  let t_cols := metaCols t_meta
  (if t_cols.contains "responded_at" then [("responded_at", PyVal.vNow)] else [])
  ++ (if t_cols.contains "status" then
        (if ((lookupMeta t_meta "status").map (fun m => m.data_type)) ≠ some "USER-DEFINED"
         then [("status", PyVal.vStr "responded")] else [])
      else [])

/-- Pure model of the `create_task_response` handler. -/
def create_task_response (p : Payload) (db : Db) : Outcome :=
  if !(is_uuid p.task_id) then
    ⟨.err "invalid_task_id" "task_id must be a UUID" [("task_id", .str p.task_id)], [], []⟩
  else if pyTruthy p.user_id && !(is_uuid (optStr p.user_id)) then
    ⟨.err "invalid_user_id" "user_id must be a UUID" [("user_id", .str (optStr p.user_id))], [], []⟩
  else
    let ops1 : List DbOp := [.connect, .queryMeta "task_responses"]
    if db.tr_meta.isEmpty then
      ⟨.err "missing_table" "Table public.task_responses not found or has no columns" [], ops1, []⟩
    else
      let ops2 := ops1 ++ [DbOp.queryMeta "tasks"]
      if db.t_meta.isEmpty then
        ⟨.err "missing_table" "Table public.tasks not found or has no columns" [], ops2, []⟩
      else
        let tr_cols := metaCols db.tr_meta
        let t_cols := metaCols db.t_meta
        match pick_first tr_cols tr_fk_candidates with
        | none =>
          ⟨.err "schema_mismatch" "task_responses missing task FK column (expected task_id-like)"
            [("columns", .cols (sortStrings tr_cols))], ops2, []⟩
        | some fk =>
          let insert_data := insertPlan p tr_cols fk
          let provided := insert_data.map Prod.fst
          let missing := checkRequired db.tr_meta provided
          if !missing.isEmpty then
            ⟨.err "missing_required_fields"
              "task_responses has required columns without defaults that were not provided"
              [("missing_columns", .cols missing),
               ("provided_columns", .cols (sortStrings provided)),
               ("available_columns", .cols (sortStrings tr_cols))], ops2, []⟩
          else if !(t_cols.contains "id") then
            ⟨.err "schema_mismatch" "tasks table missing id column"
              [("tasks_columns", .cols (sortStrings t_cols))], ops2, []⟩
          else
            let ops3 := ops2 ++ [DbOp.selectTaskExists p.task_id]
            if !db.task_found then
              ⟨.err "task_not_found" "No task found for task_id"
                [("task_id", .str p.task_id)], ops3, []⟩
            else
              let insert_cols := insert_data.map Prod.fst
              let returning_cols := returningColsOf tr_cols
              let ops4 := ops3 ++ [DbOp.insertRow (buildInsertStmt insert_cols returning_cols) insert_cols]
              if db.insert_raises then
                ⟨.err "task_response_create_failed" db.insert_error [], ops4, []⟩
              else
                let update_fields := updateFieldsOf db.t_meta
                if update_fields.isEmpty then
                  ⟨.saved p.task_id returning_cols, ops4, writesOf ops4⟩
                else
                  let ops5 := ops4 ++ [DbOp.updateTask (update_fields.map Prod.fst)]
                  if db.update_raises then
                    ⟨.err "task_response_create_failed" db.update_error [], ops5, []⟩
                  else
                    ⟨.saved p.task_id returning_cols, ops5, writesOf ops5⟩

/-! ### Shared lemmas -/

theorem contains_eq_mem (l : List String) (a : String) : l.contains a = true ↔ a ∈ l := by
  simp [List.contains_iff_exists_mem_beq]

/-- C2: For all desired-field lists D and live schema column lists S, the
intersection is a subsequence of D (hence in D's order, not the table's
physical order) whose members are exactly the elements of D that occur in
S; elements of D absent from S are dropped without error (the function is
total). -/
theorem C2_select_intersection_spec (existing desired : List String) :
    (select_intersection existing desired).Sublist desired ∧
    (∀ c, c ∈ select_intersection existing desired ↔ c ∈ desired ∧ c ∈ existing) := by
  constructor
  · exact List.filter_sublist desired
  · intro c
    simp [select_intersection, List.mem_filter, contains_eq_mem]

/-- C5: alias resolution returns the first candidate (in the
caller-supplied priority order) present in the column set, and none when
no candidate is present; with two distinct matching candidates, the
order of the candidate list determines the result, so reordering changes
it. -/
theorem C5_pick_first_spec :
    (∀ (existing candidates : List String),
      pick_first existing candidates = none ↔ ∀ c ∈ candidates, c ∉ existing) ∧
    (∀ (existing : List String) (a : String) (rest : List String),
      a ∈ existing → pick_first existing (a :: rest) = some a) ∧
    (∀ (existing : List String) (a : String) (rest : List String),
      a ∉ existing → pick_first existing (a :: rest) = pick_first existing rest) ∧
    (∀ (existing : List String) (a b : String) (rest : List String),
      a ≠ b → a ∈ existing → b ∈ existing →
        pick_first existing (a :: b :: rest) = some a ∧
        pick_first existing (b :: a :: rest) = some b ∧
        pick_first existing (a :: b :: rest) ≠ pick_first existing (b :: a :: rest)) := by
  refine ⟨?_, ?_, ?_, ?_⟩
  · intro existing candidates
    rw [pick_first, List.find?_eq_none]
    constructor
    · intro h c hc hmem
      exact absurd ((contains_eq_mem existing c).mpr hmem) (by simpa using h c hc)
    · intro h c hc
      simpa using fun hmem => h c hc ((contains_eq_mem existing c).mp hmem)
  · intro existing a rest ha
    simp [pick_first, List.find?_cons, ha]
  · intro existing a rest ha
    simp [pick_first, List.find?_cons, ha]
  · intro existing a b rest hab ha hb
    have h1 : pick_first existing (a :: b :: rest) = some a := by
      simp [pick_first, List.find?_cons, ha]
    have h2 : pick_first existing (b :: a :: rest) = some b := by
      simp [pick_first, List.find?_cons, hb]
    refine ⟨h1, h2, ?_⟩
    rw [h1, h2]
    simp [hab]

/-- Witness for C5 at concrete inputs: with columns {task_id, tasks_id},
the candidate order decides which alias wins. -/
theorem C5_pick_first_spec_witness :
    ("task_id" : String) ≠ "tasks_id" ∧
    ("task_id" : String) ∈ ["task_id", "tasks_id"] ∧
    ("tasks_id" : String) ∈ ["task_id", "tasks_id"] ∧
    (pick_first ["task_id", "tasks_id"] ["task_id", "tasks_id", "task_uuid"] = some "task_id" ∧
     pick_first ["task_id", "tasks_id"] ["tasks_id", "task_id", "task_uuid"] = some "tasks_id" ∧
     pick_first ["task_id", "tasks_id"] ["task_id", "tasks_id", "task_uuid"] ≠
       pick_first ["task_id", "tasks_id"] ["tasks_id", "task_id", "task_uuid"]) := by
  refine ⟨by decide, by decide, by decide, ?_⟩
  exact C5_pick_first_spec.2.2.2 ["task_id", "tasks_id"] "task_id" "tasks_id" ["task_uuid"]
    (by decide) (by decide) (by decide)

/-- A pattern is found by `listContains` wherever it occurs as a block. -/
theorem listContains_append_self (pat l tail : List Char) :
    listContains pat (l ++ (pat ++ tail)) = true := by
  induction l with
  | nil =>
    cases pat with
    | nil =>
      cases tail with
      | nil => rfl
      | cons c r => simp [listContains]
    | cons p ps =>
      have hpre : (p :: ps).isPrefixOf ((p :: ps) ++ tail) = true :=
        List.isPrefixOf_iff_prefix.mpr (List.prefix_append _ _)
      simp [listContains, hpre]
  | cons c l ih =>
    simp [listContains, ih]

/-- C8 counterexample: with a configured connection string that has no
sslmode specification, the connection opener the API endpoints actually
use (`_db` in src/main.py) passes the string through unchanged, so the
connection it opens does not have sslmode=require appended. -/
theorem C8_counterexample :
    main_db_dsn "postgresql://db.example.com/postgres"
        = .ok "postgresql://db.example.com/postgres" ∧
    pyContains "sslmode=" "postgresql://db.example.com/postgres" = false := by
  constructor
  · rfl
  · decide

/-- C8 (amended): the `get_conn` helper in src/db.py appends
sslmode=require to a non-empty connection string lacking an sslmode
specification (joined with & if the string contains ?, else with ?),
and the resulting string contains an sslmode specification; but the
connection opener used by every API endpoint (`_db` in src/main.py)
uses the configured string unchanged, so TLS enforcement applies only
to connections opened through `get_conn`. -/
theorem C8_sslmode_amended (dsn : String) (hne : dsn ≠ "")
    (hmiss : pyContains "sslmode=" dsn = false) :
    get_conn_dsn dsn
        = .ok (dsn ++ (if pyContains "?" dsn then "&" else "?") ++ "sslmode=require") ∧
    (∀ dsn2, pyContains "sslmode="
        (dsn2 ++ (if pyContains "?" dsn2 then "&" else "?") ++ "sslmode=require") = true) ∧
    main_db_dsn dsn = .ok dsn := by
  refine ⟨by simp [get_conn_dsn, hne, hmiss], ?_, by simp [main_db_dsn, hne]⟩
  intro dsn2
  have hdata : ("sslmode=require" : String).data = ("sslmode=".data) ++ ("require".data) := by
    decide
  cases hq : pyContains "?" dsn2 with
  | true =>
    simpa [pyContains, hq, String.data_append, hdata] using
      listContains_append_self ("sslmode=".data) (dsn2.data ++ "&".data) ("require".data)
  | false =>
    simpa [pyContains, hq, String.data_append, hdata] using
      listContains_append_self ("sslmode=".data) (dsn2.data ++ "?".data) ("require".data)

/-- Witness for C8 (amended) at a concrete sslmode-less DSN. -/
theorem C8_sslmode_amended_witness :
    ("postgresql://h/db?user=u" : String) ≠ "" ∧
    pyContains "sslmode=" "postgresql://h/db?user=u" = false ∧
    (get_conn_dsn "postgresql://h/db?user=u"
        = .ok ("postgresql://h/db?user=u"
            ++ (if pyContains "?" "postgresql://h/db?user=u" then "&" else "?")
            ++ "sslmode=require") ∧
     (∀ dsn2, pyContains "sslmode="
        (dsn2 ++ (if pyContains "?" dsn2 then "&" else "?") ++ "sslmode=require") = true) ∧
     main_db_dsn "postgresql://h/db?user=u" = .ok "postgresql://h/db?user=u") := by
  refine ⟨by decide, by decide, ?_⟩
  exact C8_sslmode_amended "postgresql://h/db?user=u" (by decide) (by decide)

/-- C7: a task-response creation request whose task_id is not a
well-formed UUID is rejected with an invalid_task_id error carrying the
offending value, and no database operation of any kind is attempted —
in particular no connection is opened and no write occurs. -/
theorem C7_invalid_task_id_no_db (p : Payload) (db : Db)
    (h : is_uuid p.task_id = false) :
    create_task_response p db =
      ⟨.err "invalid_task_id" "task_id must be a UUID" [("task_id", .str p.task_id)], [], []⟩ := by
  simp [create_task_response, h]

/-- Witness for C7: the concrete malformed identifier from the spec
scenario. -/
theorem C7_invalid_task_id_no_db_witness :
    is_uuid "not-a-uuid" = false ∧
    create_task_response { task_id := "not-a-uuid" }
        { tr_meta := [], t_meta := [], task_found := false,
          insert_raises := false, update_raises := false } =
      ⟨.err "invalid_task_id" "task_id must be a UUID" [("task_id", .str "not-a-uuid")], [], []⟩ := by
  exact ⟨by decide, C7_invalid_task_id_no_db _ _ (by decide)⟩

/-- C9 counterexample: a supplied non-null user_id that is not a
well-formed UUID does NOT always yield invalid_user_id.  With
`user_id = ""` (non-null, not a UUID) the truthiness guard skips the
check entirely: the handler proceeds to the database (a connection is
opened and the metadata queried) and here reports missing_table
instead. -/
theorem C9_counterexample :
    is_uuid "" = false ∧
    create_task_response
        { task_id := "12345678-1234-1234-1234-123456789abc", user_id := some "" }
        { tr_meta := [], t_meta := [], task_found := false,
          insert_raises := false, update_raises := false } =
      ⟨.err "missing_table" "Table public.task_responses not found or has no columns" [],
       [.connect, .queryMeta "task_responses"], []⟩ := by
  exact ⟨by decide, by decide⟩

/-- C9 (amended): when the task_id is a well-formed UUID and the
supplied user_id is non-empty (Python truthiness, not mere non-null)
and not a well-formed UUID, the operation returns invalid_user_id and
no database access of any kind is attempted. -/
theorem C9_invalid_user_id_amended (p : Payload) (db : Db)
    (h1 : is_uuid p.task_id = true)
    (h2 : pyTruthy p.user_id = true)
    (h3 : is_uuid (optStr p.user_id) = false) :
    create_task_response p db =
      ⟨.err "invalid_user_id" "user_id must be a UUID" [("user_id", .str (optStr p.user_id))], [], []⟩ := by
  simp [create_task_response, h1, h2, h3]

/-- Witness for C9 (amended) at a concrete payload. -/
theorem C9_invalid_user_id_amended_witness :
    is_uuid "12345678-1234-1234-1234-123456789abc" = true ∧
    pyTruthy (some "not-a-uuid") = true ∧
    is_uuid (optStr (some "not-a-uuid")) = false ∧
    create_task_response
        { task_id := "12345678-1234-1234-1234-123456789abc", user_id := some "not-a-uuid" }
        { tr_meta := [], t_meta := [], task_found := false,
          insert_raises := false, update_raises := false } =
      ⟨.err "invalid_user_id" "user_id must be a UUID"
        [("user_id", .str (optStr (some "not-a-uuid")))], [], []⟩ := by
  exact ⟨by decide, by decide, by decide, C9_invalid_user_id_amended _ _ (by decide) (by decide) (by decide)⟩

/-- C1 (code bug): a concrete execution in which the INSERT into
task_responses succeeds and the subsequent best-effort UPDATE of the
parent tasks row raises.  Because the `try/except` sits outside
`with _db() as conn:`, the exception escapes the connection context
manager, which rolls the transaction back before the generic
task_response_create_failed error is returned: the insert was attempted
(it is in the operation trace) but no write remains persisted, contrary
to the claim that the completed insert is not rolled back. -/
theorem C1_update_failure_rolls_back_insert :
    let p : Payload := { task_id := "12345678-1234-1234-1234-123456789abc" }
    let db : Db :=
      { tr_meta := [("task_id", ⟨"NO", none, "uuid", "uuid"⟩),
                    ("response_text", ⟨"YES", none, "text", "text"⟩)],
        t_meta := [("id", ⟨"NO", none, "uuid", "uuid"⟩),
                   ("responded_at", ⟨"YES", none, "timestamp with time zone", "timestamptz"⟩)],
        task_found := true, insert_raises := false, update_raises := true,
        update_error := "update execution fault" }
    (create_task_response p db).result
        = .err "task_response_create_failed" "update execution fault" [] ∧
    (∃ stmt cols, DbOp.insertRow stmt cols ∈ (create_task_response p db).ops) ∧
    (create_task_response p db).committedWrites = [] := by
  refine ⟨by decide, ⟨buildInsertStmt ["task_id"] ["task_id"], ["task_id"], by decide⟩, by decide⟩

/-- C6 counterexample: with an account_id filter, a tasks schema lacking
account_id, and a join the schema cannot support (tasks lacks
audit_run_id), the listing does NOT always return
tasks_cannot_filter_account_id: when the tasks schema shares no column
with the desired list, the earlier no-known-columns check wins and
tasks_no_known_columns is returned instead. -/
theorem C6_counterexample :
    listTasksStmt ["name"] ["id"] none (some "a1b2") none 200
        = .errNoKnownColumns ["name"] ∧
    listTasksStmt ["name"] ["id"] none (some "a1b2") none 200
        ≠ .errCannotFilterAccount
            "tasks.account_id missing and cannot join to audit_runs (missing required columns)."
            ["name"] ["id"] := by
  exact ⟨by decide, by decide⟩

/-- C6 (amended): when the task listing is given a (truthy) account_id
filter, the tasks schema has no account_id column, the join to
audit_runs is unsupported (tasks lacks audit_run_id, or audit_runs
lacks id or account_id), and the tasks schema shares at least one
column with the desired field list (otherwise tasks_no_known_columns is
returned first), the operation returns tasks_cannot_filter_account_id
with both tables' column lists attached — it neither drops the filter
nor builds a query. -/
theorem C6_cannot_filter_account_amended
    (task_cols run_cols : List String)
    (audit_run_id account_id status : Option String) (limit : Int)
    (hsel : (select_intersection task_cols tasks_desired).isEmpty = false)
    (hacc : pyTruthy account_id = true)
    (hnocol : task_cols.contains "account_id" = false)
    (hnojoin : (task_cols.contains "audit_run_id" && run_cols.contains "id"
        && run_cols.contains "account_id") = false) :
    listTasksStmt task_cols run_cols audit_run_id account_id status limit
        = .errCannotFilterAccount
            "tasks.account_id missing and cannot join to audit_runs (missing required columns)."
            task_cols run_cols := by
  simp only [listTasksStmt, hsel, hacc, hnocol, hnojoin, Bool.false_eq_true, if_false, if_true]

/-- Witness for C6 (amended): the spec Scenario 3 schema shape. -/
theorem C6_cannot_filter_account_amended_witness :
    (select_intersection ["id", "title", "status"] tasks_desired).isEmpty = false ∧
    pyTruthy (some "acc-123") = true ∧
    (["id", "title", "status"] : List String).contains "account_id" = false ∧
    ((["id", "title", "status"] : List String).contains "audit_run_id"
        && (["run_id"] : List String).contains "id"
        && (["run_id"] : List String).contains "account_id") = false ∧
    listTasksStmt ["id", "title", "status"] ["run_id"] none (some "acc-123") none 200
        = .errCannotFilterAccount
            "tasks.account_id missing and cannot join to audit_runs (missing required columns)."
            ["id", "title", "status"] ["run_id"] := by
  refine ⟨by decide, by decide, by decide, by decide, ?_⟩
  exact C6_cannot_filter_account_amended ["id", "title", "status"] ["run_id"]
    none (some "acc-123") none 200 (by decide) (by decide) (by decide) (by decide)

/-- Membership in `_missing_required_columns`: exactly the metadata
entries that are NOT NULL, lack a (truthy) default, and were not
provided. -/
theorem mem_missing_required (meta : TableMeta) (provided : List String) (c : String) :
    c ∈ missing_required_columns meta provided ↔
      ∃ m, (c, m) ∈ meta ∧ c ∉ provided ∧
        m.is_nullable = "NO" ∧ pyFalsyDefault m.column_default = true := by
  simp only [missing_required_columns, List.mem_map, List.mem_filter]
  constructor
  · rintro ⟨⟨a, m⟩, ⟨hm, hp⟩, rfl⟩
    simp only [Bool.and_eq_true, Bool.not_eq_true', beq_iff_eq] at hp
    exact ⟨m, hm, by simpa [contains_eq_mem] using hp.1.1, hp.1.2, hp.2⟩
  · rintro ⟨m, hm, hnp, hnn, hpd⟩
    refine ⟨(c, m), ⟨hm, ?_⟩, rfl⟩
    simp only [Bool.and_eq_true, Bool.not_eq_true', beq_iff_eq]
    refine ⟨⟨?_, hnn⟩, hpd⟩
    cases h : List.contains provided c
    · rfl
    · exact absurd ((contains_eq_mem provided c).mp h) hnp

/-- C3: the required-field check (the `_missing_required_columns` result
filtered by the fixed allow-list {id, created_at, updated_at}) contains
exactly the columns whose metadata marks them NOT NULL without default
and which are neither provided nor allow-listed; and on the write path,
once schema resolution has succeeded, the request is rejected with
missing_required_fields carrying that list verbatim exactly when the
list is non-empty — in which case no write is attempted. -/
theorem C3_checkRequired_spec :
    (∀ (meta : TableMeta) (provided : List String) (c : String),
      c ∈ checkRequired meta provided ↔
        ((∃ m, (c, m) ∈ meta ∧ m.is_nullable = "NO" ∧ pyFalsyDefault m.column_default = true)
          ∧ c ∉ provided ∧ c ∉ allowlist)) ∧
    (∀ (p : Payload) (db : Db) (fk : String),
      is_uuid p.task_id = true →
      (pyTruthy p.user_id = true → is_uuid (optStr p.user_id) = true) →
      db.tr_meta.isEmpty = false →
      db.t_meta.isEmpty = false →
      pick_first (metaCols db.tr_meta) tr_fk_candidates = some fk →
      let tr_cols := metaCols db.tr_meta
      let provided := (insertPlan p tr_cols fk).map Prod.fst
      let missing := checkRequired db.tr_meta provided
      ((create_task_response p db).result =
          .err "missing_required_fields"
            "task_responses has required columns without defaults that were not provided"
            [("missing_columns", .cols missing),
             ("provided_columns", .cols (sortStrings provided)),
             ("available_columns", .cols (sortStrings tr_cols))] ↔ missing ≠ []) ∧
      (missing ≠ [] → writesOf (create_task_response p db).ops = [])) := by
  constructor
  · intro meta provided c
    rw [checkRequired, List.mem_filter, mem_missing_required]
    constructor
    · rintro ⟨⟨m, hm, hnp, hnn, hpd⟩, hal⟩
      exact ⟨⟨m, hm, hnn, hpd⟩, hnp,
        by simpa [contains_eq_mem] using hal⟩
    · rintro ⟨⟨m, hm, hnn, hpd⟩, hnp, hal⟩
      refine ⟨⟨m, hm, hnp, hnn, hpd⟩, ?_⟩
      cases h : List.contains allowlist c
      · rfl
      · exact absurd ((contains_eq_mem allowlist c).mp h) hal
  · intro p db fk h1 h2 h3 h4 hfk
    intro tr_cols provided missing
    have h2b : (pyTruthy p.user_id && !(is_uuid (optStr p.user_id))) = false := by
      cases hu : pyTruthy p.user_id
      · simp
      · simp [h2 hu]
    by_cases hm : missing.isEmpty
    · have hm2 : missing = [] := List.isEmpty_iff.mp hm
      simp only [create_task_response, h1, h2b, h3, h4, hfk, Bool.not_true,
        Bool.false_eq_true, if_false, hm]
      have hne : (missing ≠ []) = False := by simp [hm2]
      rw [hne, iff_false]
      refine ⟨?_, fun h => h.elim⟩
      intro hres
      repeat' split at hres
      all_goals simp_all
    · have hmb : missing.isEmpty = false := by
        cases h : missing.isEmpty
        · rfl
        · exact absurd h hm
      have hm2 : missing ≠ [] := by
        intro h
        rw [h] at hmb
        simp at hmb
      simp only [create_task_response, h1, h2b, h3, h4, hfk, Bool.not_true,
        Bool.false_eq_true, if_false, hmb, Bool.not_false, if_true]
      exact ⟨by simp [hm2], fun _ => by simp [writesOf]⟩

/-- Witness for C3 at a concrete schema: the spec Scenario 2 shape
(`severity` NOT NULL without default, not provided) blocks the write. -/
theorem C3_checkRequired_spec_witness :
    let p : Payload := { task_id := "12345678-1234-1234-1234-123456789abc" }
    let db : Db :=
      { tr_meta := [("task_id", ⟨"NO", none, "uuid", "uuid"⟩),
                    ("severity", ⟨"NO", none, "text", "text"⟩)],
        t_meta := [("id", ⟨"NO", none, "uuid", "uuid"⟩)],
        task_found := true, insert_raises := false, update_raises := false }
    is_uuid p.task_id = true ∧
    (pyTruthy p.user_id = true → is_uuid (optStr p.user_id) = true) ∧
    db.tr_meta.isEmpty = false ∧
    db.t_meta.isEmpty = false ∧
    pick_first (metaCols db.tr_meta) tr_fk_candidates = some "task_id" ∧
    (let tr_cols := metaCols db.tr_meta
     let provided := (insertPlan p tr_cols "task_id").map Prod.fst
     let missing := checkRequired db.tr_meta provided
     ((create_task_response p db).result =
        .err "missing_required_fields"
          "task_responses has required columns without defaults that were not provided"
          [("missing_columns", .cols missing),
           ("provided_columns", .cols (sortStrings provided)),
           ("available_columns", .cols (sortStrings tr_cols))] ↔ missing ≠ []) ∧
     (missing ≠ [] → writesOf (create_task_response p db).ops = [])) := by
  refine ⟨by decide, by decide, by decide, by decide, by decide, ?_⟩
  exact C3_checkRequired_spec.2 _ _ "task_id" (by decide) (by decide) (by decide)
    (by decide) (by decide)

/-! ### Fragment-level lemmas for the SELECT builders -/

theorem fragPlaceholders_append (a b : List SqlFrag) :
    fragPlaceholders (a ++ b) = fragPlaceholders a ++ fragPlaceholders b := by
  simp [fragPlaceholders, List.filterMap_append]

theorem fragPlaceholders_raw_single (s : String) :
    fragPlaceholders [SqlFrag.raw s] = [] := rfl

theorem fragPlaceholders_nil : fragPlaceholders [] = [] := rfl

theorem fragPlaceholders_cons_raw (s : String) (rest : List SqlFrag) :
    fragPlaceholders (SqlFrag.raw s :: rest) = fragPlaceholders rest := rfl

theorem fragPlaceholders_cons_ident (c : String) (rest : List SqlFrag) :
    fragPlaceholders (SqlFrag.ident c :: rest) = fragPlaceholders rest := rfl

theorem fragPlaceholders_cons_ph (c : String) (rest : List SqlFrag) :
    fragPlaceholders (SqlFrag.ph c :: rest) = c :: fragPlaceholders rest := rfl

theorem fragPlaceholders_joinFrags_raw (s : String) (L : List (List SqlFrag)) :
    fragPlaceholders (joinFrags (.raw s) L) = (L.map fragPlaceholders).flatten := by
  induction L with
  | nil => rfl
  | cons p ps ih =>
    cases ps with
    | nil => simp [joinFrags]
    | cons q rest =>
      simp only [joinFrags, fragPlaceholders_append, fragPlaceholders_raw_single, ih,
        List.map_cons, List.flatten_cons, List.nil_append, List.append_assoc]

theorem fragPlaceholders_ident_join (s : String) (cols : List String) :
    fragPlaceholders (joinFrags (.raw s) (cols.map (fun c => [SqlFrag.ident c]))) = [] := by
  rw [fragPlaceholders_joinFrags_raw]
  induction cols with
  | nil => rfl
  | cons c cs ih => simpa [fragPlaceholders] using ih

theorem fragPlaceholders_ident_join_t (s : String) (cols : List String) :
    fragPlaceholders (joinFrags (.raw s)
      (cols.map (fun c => [SqlFrag.raw "t.", SqlFrag.ident c]))) = [] := by
  rw [fragPlaceholders_joinFrags_raw]
  induction cols with
  | nil => rfl
  | cons c cs ih => simpa [fragPlaceholders] using ih

theorem fragPlaceholders_ph_join (s : String) (cols : List String) :
    fragPlaceholders (joinFrags (.raw s) (cols.map (fun c => [SqlFrag.ph c]))) = cols := by
  rw [fragPlaceholders_joinFrags_raw]
  induction cols with
  | nil => rfl
  | cons c cs ih => simpa [fragPlaceholders] using ih

theorem not_mem_joinFrags (x sep : SqlFrag) (L : List (List SqlFrag))
    (hx : x ≠ sep) (hL : ∀ p ∈ L, x ∉ p) : x ∉ joinFrags sep L := by
  induction L with
  | nil => simp [joinFrags]
  | cons p ps ih =>
    cases ps with
    | nil => simpa [joinFrags] using hL p (by simp)
    | cons q rest =>
      intro hmem
      rcases List.mem_append.mp hmem with h1 | hj
      · rcases List.mem_append.mp h1 with hp | hs
        · exact hL p (by simp) hp
        · simp at hs
          exact hx hs
      · exact ih (fun r hr => hL r (by simp [hr])) hj

theorem where_not_mem_ident_join (cols : List String) :
    SqlFrag.raw "WHERE " ∉
      joinFrags (.raw ", ") (cols.map (fun c => [SqlFrag.ident c])) := by
  refine not_mem_joinFrags _ _ _ (by decide) ?_
  intro p hp
  rcases List.mem_map.mp hp with ⟨c, _, rfl⟩
  simp

theorem where_not_mem_ident_join_t (cols : List String) :
    SqlFrag.raw "WHERE " ∉
      joinFrags (.raw ", ") (cols.map (fun c => [SqlFrag.raw "t.", SqlFrag.ident c])) := by
  refine not_mem_joinFrags _ _ _ (by decide) ?_
  intro p hp
  rcases List.mem_map.mp hp with ⟨c, _, rfl⟩
  simp

theorem mem_whereClauseFrags (w : List (List SqlFrag)) :
    SqlFrag.raw "WHERE " ∈ whereClauseFrags w ↔ w ≠ [] := by
  cases w with
  | nil => simp [whereClauseFrags]
  | cons p ps => simp [whereClauseFrags]

theorem fragPlaceholders_whereClause (w : List (List SqlFrag)) :
    fragPlaceholders (whereClauseFrags w) = (w.map fragPlaceholders).flatten := by
  cases w with
  | nil => rfl
  | cons p ps =>
    simp only [whereClauseFrags, List.isEmpty_cons, Bool.false_eq_true, if_false,
      fragPlaceholders_cons_raw, fragPlaceholders_joinFrags_raw]

theorem mkTasksQuery_whereParts (a b : List String) (w : List (List SqlFrag))
    (j : List SqlFrag) (p : List (String × PyVal)) :
    (mkTasksQuery a b w j p).whereParts = w := rfl

theorem mkTasksQuery_params (a b : List String) (w : List (List SqlFrag))
    (j : List SqlFrag) (p : List (String × PyVal)) :
    (mkTasksQuery a b w j p).params = p := rfl

theorem mkTasksQuery_props (task_cols select_cols : List String)
    (w : List (List SqlFrag)) (joinF : List SqlFrag) (params : List (String × PyVal))
    (hjoin : SqlFrag.raw "WHERE " ∉ joinF)
    (hjph : fragPlaceholders joinF = []) :
    ((SqlFrag.raw "WHERE " ∈ (mkTasksQuery task_cols select_cols w joinF params).frags) ↔
        w ≠ []) ∧
    fragPlaceholders (mkTasksQuery task_cols select_cols w joinF params).frags
      = (w.map fragPlaceholders).flatten ++ ["limit"] := by
  constructor
  · simp [mkTasksQuery, List.mem_append, where_not_mem_ident_join_t, hjoin,
      mem_whereClauseFrags]
  · simp [mkTasksQuery, fragPlaceholders_append, fragPlaceholders_ident_join_t, hjph,
      fragPlaceholders_whereClause, fragPlaceholders_cons_raw, fragPlaceholders_cons_ident,
      fragPlaceholders_cons_ph, fragPlaceholders_nil]

/-- Safety of the statement built by the run listing. -/
theorem listAuditRunsStmt_safe (cols : List String) (account_id : Option String) (limit : Int)
    (q : BuiltQuery) (h : listAuditRunsStmt cols account_id limit = .query q) :
    ((SqlFrag.raw "WHERE " ∈ q.frags) ↔ q.whereParts ≠ []) ∧
    (∀ part ∈ q.whereParts, part ≠ []) ∧
    (∀ n, n ∈ fragPlaceholders q.frags ↔ n ∈ q.params.map Prod.fst) := by
  by_cases hsel : (select_intersection cols audit_runs_desired).isEmpty
  · simp [listAuditRunsStmt, hsel] at h
  · by_cases hacc : (pyTruthy account_id && cols.contains "account_id") = true
    · simp only [listAuditRunsStmt, hsel, hacc, Bool.false_eq_true, if_false, if_true,
        RunsResult.query.injEq] at h
      subst h
      refine ⟨?_, by simp [auditRunsAccountPred], ?_⟩
      · simp [whereClauseFrags, joinFrags, auditRunsAccountPred]
      · intro n
        simp [fragPlaceholders_append, fragPlaceholders_ident_join, fragPlaceholders_nil,
          fragPlaceholders_cons_raw, fragPlaceholders_cons_ident, fragPlaceholders_cons_ph,
          whereClauseFrags, joinFrags, auditRunsAccountPred]
        tauto
    · simp only [listAuditRunsStmt, hsel, hacc, Bool.false_eq_true, if_false, if_true,
        RunsResult.query.injEq] at h
      subst h
      refine ⟨?_, by simp, ?_⟩
      · simp [whereClauseFrags, where_not_mem_ident_join]
      · intro n
        simp [fragPlaceholders_append, fragPlaceholders_ident_join, fragPlaceholders_nil,
          fragPlaceholders_cons_raw, fragPlaceholders_cons_ident, fragPlaceholders_cons_ph,
          whereClauseFrags]

/-- Safety of the statement built by the task listing. -/
theorem listTasksStmt_safe (task_cols run_cols : List String)
    (audit_run_id account_id status : Option String) (limit : Int)
    (q : BuiltQuery)
    (h : listTasksStmt task_cols run_cols audit_run_id account_id status limit = .query q) :
    ((SqlFrag.raw "WHERE " ∈ q.frags) ↔ q.whereParts ≠ []) ∧
    (∀ part ∈ q.whereParts, part ≠ []) ∧
    (∀ n, n ∈ fragPlaceholders q.frags ↔ n ∈ q.params.map Prod.fst) := by
  simp only [listTasksStmt] at h
  repeat' split at h
  all_goals try simp at h
  all_goals subst h
  all_goals refine ⟨(mkTasksQuery_props _ _ _ _ _ (by decide) (by decide)).1,
    by rw [mkTasksQuery_whereParts]; decide, ?_⟩
  all_goals intro n
  all_goals rw [(mkTasksQuery_props _ _ _ _ _ (by decide) (by decide)).2]
  all_goals
    simp [tasksAuditRunPred, tasksStatusPred, tasksAccountPredT, tasksAccountPredR,
      mkTasksQuery_params,
      fragPlaceholders_cons_raw, fragPlaceholders_cons_ph, fragPlaceholders_nil]
  all_goals tauto

/-- C4: for every combination of optional filters, whenever the run
listing or the task listing builds a statement, the WHERE keyword
fragment occurs in it exactly when there is at least one predicate
(each predicate itself non-empty) — so a WHERE followed by zero
predicates is never emitted — and the named placeholders occurring in
the statement are exactly the names of the bound parameters supplied
with it. -/
theorem C4_buildSelect_safe :
    (∀ (cols : List String) (account_id : Option String) (limit : Int) (q : BuiltQuery),
      listAuditRunsStmt cols account_id limit = .query q →
        ((SqlFrag.raw "WHERE " ∈ q.frags) ↔ q.whereParts ≠ []) ∧
        (∀ part ∈ q.whereParts, part ≠ []) ∧
        (∀ n, n ∈ fragPlaceholders q.frags ↔ n ∈ q.params.map Prod.fst)) ∧
    (∀ (task_cols run_cols : List String)
        (audit_run_id account_id status : Option String) (limit : Int) (q : BuiltQuery),
      listTasksStmt task_cols run_cols audit_run_id account_id status limit = .query q →
        ((SqlFrag.raw "WHERE " ∈ q.frags) ↔ q.whereParts ≠ []) ∧
        (∀ part ∈ q.whereParts, part ≠ []) ∧
        (∀ n, n ∈ fragPlaceholders q.frags ↔ n ∈ q.params.map Prod.fst)) :=
  ⟨listAuditRunsStmt_safe, listTasksStmt_safe⟩

/-- Witness for C4 at concrete inputs, one per endpoint, both with one
active filter. -/
theorem C4_buildSelect_safe_witness :
    let qA : BuiltQuery :=
      { selectCols := ["id", "account_id"],
        whereParts := [[SqlFrag.raw "account_id = ", SqlFrag.ph "account_id"]],
        frags := [SqlFrag.raw "SELECT ", SqlFrag.ident "id", SqlFrag.raw ", ",
          SqlFrag.ident "account_id", SqlFrag.raw " FROM ", SqlFrag.ident "audit_runs",
          SqlFrag.raw " ", SqlFrag.raw "WHERE ", SqlFrag.raw "account_id = ",
          SqlFrag.ph "account_id", SqlFrag.raw " ORDER BY ", SqlFrag.ident "id",
          SqlFrag.raw " DESC LIMIT ", SqlFrag.ph "limit", SqlFrag.raw ";"],
        params := [("limit", PyVal.vInt 1), ("account_id", PyVal.vStr "a")] }
    let qT : BuiltQuery :=
      { selectCols := ["id", "status"],
        whereParts := [[SqlFrag.raw "t.status = ", SqlFrag.ph "status"]],
        frags := [SqlFrag.raw "SELECT ", SqlFrag.raw "t.", SqlFrag.ident "id",
          SqlFrag.raw ", ", SqlFrag.raw "t.", SqlFrag.ident "status", SqlFrag.raw " FROM ",
          SqlFrag.ident "tasks", SqlFrag.raw " t ", SqlFrag.raw " ", SqlFrag.raw "WHERE ",
          SqlFrag.raw "t.status = ", SqlFrag.ph "status", SqlFrag.raw " ORDER BY t.",
          SqlFrag.ident "id", SqlFrag.raw " DESC LIMIT ", SqlFrag.ph "limit",
          SqlFrag.raw ";"],
        params := [("limit", PyVal.vInt 1), ("status", PyVal.vStr "open")] }
    (listAuditRunsStmt ["id", "account_id"] (some "a") 1 = .query qA) ∧
    (((SqlFrag.raw "WHERE " ∈ qA.frags) ↔ qA.whereParts ≠ []) ∧
     (∀ part ∈ qA.whereParts, part ≠ []) ∧
     (∀ n, n ∈ fragPlaceholders qA.frags ↔ n ∈ qA.params.map Prod.fst)) ∧
    (listTasksStmt ["id", "status"] [] none none (some "open") 1 = .query qT) ∧
    (((SqlFrag.raw "WHERE " ∈ qT.frags) ↔ qT.whereParts ≠ []) ∧
     (∀ part ∈ qT.whereParts, part ≠ []) ∧
     (∀ n, n ∈ fragPlaceholders qT.frags ↔ n ∈ qT.params.map Prod.fst)) := by
  intro qA qT
  refine ⟨by decide, C4_buildSelect_safe.1 ["id", "account_id"] (some "a") 1 qA (by decide),
    by decide,
    C4_buildSelect_safe.2 ["id", "status"] [] none none (some "open") 1 qT (by decide)⟩

/-- Placeholders of the built INSERT statement: exactly one per insert
column, in order (identifiers contribute none). -/
theorem fragPlaceholders_buildInsert (cols ret : List String) :
    fragPlaceholders (buildInsertStmt cols ret) = cols := by
  by_cases hr : ret.isEmpty
  · simp [buildInsertStmt, hr, fragPlaceholders_append, fragPlaceholders_ident_join,
      fragPlaceholders_ph_join, fragPlaceholders_cons_raw, fragPlaceholders_cons_ident,
      fragPlaceholders_nil, fragPlaceholders_raw_single]
  · simp [buildInsertStmt, hr, fragPlaceholders_append, fragPlaceholders_ident_join,
      fragPlaceholders_ph_join, fragPlaceholders_cons_raw, fragPlaceholders_cons_ident,
      fragPlaceholders_nil, fragPlaceholders_raw_single]

/-- The key list of an insert plan always starts with the resolved task
FK column. -/
theorem insertPlan_cols (p : Payload) (tr_cols : List String) (fk : String) :
    (insertPlan p tr_cols fk).map Prod.fst ≠ [] ∧
    ((insertPlan p tr_cols fk).map Prod.fst).head? = some fk := by
  simp [insertPlan]

/-- C10: whenever task-response creation reaches the insert step (an
INSERT appears in the operation trace), its column list is non-empty —
its first column is precisely the resolved task FK column — and the
built statement carries exactly one placeholder per column; the
empty-column-list programmer error is unreachable at this call site. -/
theorem C10_insert_plan_nonempty (p : Payload) (db : Db)
    (stmt : List SqlFrag) (cols : List String)
    (hmem : DbOp.insertRow stmt cols ∈ (create_task_response p db).ops) :
    cols ≠ [] ∧
    cols.head? = pick_first (metaCols db.tr_meta) tr_fk_candidates ∧
    stmt = buildInsertStmt cols (returningColsOf (metaCols db.tr_meta)) ∧
    fragPlaceholders stmt = cols := by
  simp only [create_task_response] at hmem
  by_cases hA : (!is_uuid p.task_id) = true
  · rw [if_pos hA] at hmem
    simp at hmem
  rw [if_neg hA] at hmem
  by_cases hB : (pyTruthy p.user_id && !is_uuid (optStr p.user_id)) = true
  · rw [if_pos hB] at hmem
    simp at hmem
  rw [if_neg hB] at hmem
  by_cases hC : List.isEmpty db.tr_meta = true
  · rw [if_pos hC] at hmem
    simp at hmem
  rw [if_neg hC] at hmem
  by_cases hD : List.isEmpty db.t_meta = true
  · rw [if_pos hD] at hmem
    simp at hmem
  rw [if_neg hD] at hmem
  cases hpf : pick_first (metaCols db.tr_meta) tr_fk_candidates with
  | none =>
    rw [hpf] at hmem
    simp at hmem
  | some fk =>
    simp only [hpf] at hmem
    repeat' split at hmem
    all_goals simp at hmem
    all_goals obtain ⟨hs, hc⟩ := hmem
    all_goals subst hs
    all_goals subst hc
    all_goals refine ⟨(insertPlan_cols p _ _).1, ?_, rfl, fragPlaceholders_buildInsert _ _⟩
    all_goals exact (insertPlan_cols p _ _).2

/-- Witness for C10: a concrete request that reaches the insert step
with two resolved columns. -/
theorem C10_insert_plan_nonempty_witness :
    let p : Payload :=
      { task_id := "12345678-1234-1234-1234-123456789abc", response_text := some "ok" }
    let db : Db :=
      { tr_meta := [("task_id", ⟨"NO", none, "uuid", "uuid"⟩),
                    ("response_text", ⟨"YES", none, "text", "text"⟩)],
        t_meta := [("id", ⟨"NO", none, "uuid", "uuid"⟩),
                   ("status", ⟨"YES", none, "USER-DEFINED", "task_status"⟩)],
        task_found := true, insert_raises := false, update_raises := false }
    DbOp.insertRow (buildInsertStmt ["task_id", "response_text"] ["task_id"])
        ["task_id", "response_text"] ∈ (create_task_response p db).ops ∧
    (["task_id", "response_text"] ≠ ([] : List String) ∧
     (["task_id", "response_text"] : List String).head?
        = pick_first (metaCols db.tr_meta) tr_fk_candidates ∧
     buildInsertStmt ["task_id", "response_text"] ["task_id"]
        = buildInsertStmt ["task_id", "response_text"] (returningColsOf (metaCols db.tr_meta)) ∧
     fragPlaceholders (buildInsertStmt ["task_id", "response_text"] ["task_id"])
        = ["task_id", "response_text"]) := by
  intro p db
  exact ⟨by decide, C10_insert_plan_nonempty p db _ _ (by decide)⟩

end AuditCoe
